import Mathlib

/-!
# DNCI relay — verification of the spec against `src/server/server.py`

Shallow embedding of the DNCI server (`src/server/server.py`, with the
client `src/client/client.py` where a claim mentions it).

Modelling conventions:

* JSON values are the inductive `Json` (strings, arrays, objects).  The
  payloads this program exchanges contain only these shapes.  Python
  dicts are association lists in insertion order; `setKey` models
  `d[k] = v` (replace in place if the key exists, append otherwise) and
  `lookupField` models `d[k]` / `k in d`.
* The Python `json` module is abstracted at the value level:
  `json.dumps` followed by `json.loads` is the identity on JSON values,
  so a file written by `json.dump` is modelled as holding the `Json`
  value itself, and the wire strings of the ingest/broadcast channels
  are modelled as the `Json` values they serialize.
* An uncaught Python exception inside a worker's `while True:` loop
  terminates that worker thread.  `PyError` names the exceptions the
  server code can raise; `run_ingestor` stops (remaining inputs
  unprocessed) as soon as one propagates.
* `time.strftime("%Y-%m-%d %H:%M:%S", time.localtime())` is modelled by
  `strftime_YmdHMS` applied to an abstract broken-down local time `Tm`
  supplied with each ingest step.
-/

namespace DNCI

/-- JSON values, restricted to the shapes the DNCI protocol uses. -/
inductive Json where
  | str (s : String)
  | arr (items : List Json)
  | obj (fields : List (String × Json))

/-- Python dict lookup `d[k]` on an insertion-ordered association list:
the value at the first (in a real dict, unique) matching key. -/
def lookupField : List (String × Json) → String → Option Json
  | [], _ => none
  | (k', v) :: rest, k => if k' = k then some v else lookupField rest k

/-- Python dict assignment `d[k] = v`: replaces the value in place when
the key is present, appends the pair at the end otherwise. -/
def setKey : List (String × Json) → String → Json → List (String × Json)
  | [], k, v => [(k, v)]
  | (k', v') :: rest, k, v =>
      if k' = k then (k, v) :: rest else (k', v') :: setKey rest k v

/-- Field access on a `Json` value that is expected to be an object. -/
def Json.getField : Json → String → Option Json
  | .obj fs, k => lookupField fs k
  | _, _ => none

/-- Python's `dict.get(k, default)`, as the client uses it on the parsed
login response (`response.get("messages", [])` in
`src/client/client.py`, `start_client`). -/
def pyDictGet (j : Json) (k : String) (dflt : Json) : Json :=
  match j with
  | .obj fs => (lookupField fs k).getD dflt
  | _ => dflt

/-- The Python exceptions the server code can raise.  None of them is
caught anywhere in `server.py`, so each one terminates the worker
thread it occurs in. -/
inductive PyError where
  | jsonDecodeError
  | ioError
  | keyError (k : String)
  | typeError

/-! ## Authenticator — `handle_login` (`server.py` lines 88–111) -/

/-- The success response `{"status": "success"}` sent on the login
socket. -/
def successResp : Json := .obj [("status", .str "success")]

/-- The failure response `{"status": "fail"}` sent on the login
socket. -/
def failResp : Json := .obj [("status", .str "fail")]

/-- One iteration of the `handle_login` loop (`server.py` lines
100–111) applied to the parsed request `msg` received by
`login_socket.recv_json()`.  The result is `.ok (some r)` when the
server sends the response `r`, `.ok none` when the iteration completes
without sending anything (the `if message['type'] == "LOGIN"` test was
false — the code has no `else` branch), and `.error e` when an uncaught
exception `e` propagates. -/
def handle_login_step (users : List (String × String)) (msg : Json) :
    Except PyError (Option Json) :=
  match msg with
  | .obj fs =>
    match lookupField fs "type" with
    | none => .error (.keyError "type")
    | some t =>
      match t with
      | .str s =>
        if s = "LOGIN" then
          match lookupField fs "username" with
          | none => .error (.keyError "username")
          | some u =>
            match lookupField fs "password" with
            | none => .error (.keyError "password")
            | some p =>
              match u with
              | .str name =>
                match users.lookup name with
                | some digest =>
                  match p with
                  | .str ph =>
                      if ph = digest then .ok (some successResp)
                      else .ok (some failResp)
                  | _ => .ok (some failResp)
                | none => .ok (some failResp)
              | _ => .error .typeError
        else .ok none
      | _ => .ok none
  | _ => .error .typeError

/-- The login request `{"type": "LOGIN", "username": u, "password": p}`
as built by the client (`src/client/client.py`, `login`). -/
def mkLoginMsg (u : String) (p : Json) : Json :=
  .obj [("type", .str "LOGIN"), ("username", .str u), ("password", p)]

/-- The condition of `server.py` line 106,
`username in USERS and USERS[username] == password_hash`, for a string
username and an arbitrary JSON password value. -/
def credOk (users : List (String × String)) (u : String) (p : Json) : Bool :=
  match users.lookup u with
  | some d =>
    match p with
    | .str ph => ph == d
    | _ => false
  | none => false

/-! ## Relay-local wall-clock time -/

/-- A broken-down local time, as produced by `time.localtime()`. -/
structure Tm where
  year : Nat
  month : Nat
  mday : Nat
  hour : Nat
  minute : Nat
  sec : Nat

/-- Zero-padding to two digits, as `strftime` does for `%m %d %H %M %S`. -/
def pad2 (n : Nat) : String :=
  if n < 10 then "0" ++ toString n else toString n

/-- Zero-padding to four digits, as `strftime` does for `%Y`. -/
def pad4 (n : Nat) : String :=
  if n < 10 then "000" ++ toString n
  else if n < 100 then "00" ++ toString n
  else if n < 1000 then "0" ++ toString n
  else toString n

/-- `time.strftime("%Y-%m-%d %H:%M:%S", t)` (`server.py` line 129). -/
def strftime_YmdHMS (t : Tm) : String :=
  pad4 t.year ++ "-" ++ pad2 t.month ++ "-" ++ pad2 t.mday ++ " " ++
    pad2 t.hour ++ ":" ++ pad2 t.minute ++ ":" ++ pad2 t.sec

/-! ## MessageLog — `load_messages` / `save_messages`
(`server.py` lines 69–85)

The durable file `data/messages.json` is modelled as `Option Json`:
`none` when the file does not exist, `some c` when it exists and holds
the JSON value `c`. -/

/-- The in-memory `messages` object `{"messages": [...]}` holding the
ordered message sequence. -/
def mkMessagesObj (ms : List Json) : Json :=
  .obj [("messages", .arr ms)]

/-- `load_messages` (`server.py` lines 69–78): when the file exists its
JSON content is parsed and returned; when it is absent the empty
object `{"messages": []}` is returned and a warning is logged.  The
second component records whether `logger.warning` was called.  No
branch raises: an absent file is never fatal. -/
def load_messages : Option Json → Json × Bool
  | some data => (data, false)
  | none => (mkMessagesObj [], true)

/-- `save_messages` (`server.py` lines 81–85): serializes the entire
object `m` and rewrites the file with it; the previous content is
discarded wholesale. -/
def save_messages (m : Json) (_file : Option Json) : Option Json :=
  some m

/-! ## Ingestor — `handle_messages` (`server.py` lines 114–139) -/

/-- The mutable state the Ingestor worker touches: the in-memory list
`messages['messages']`, the durable file `data/messages.json`, and the
sequence of messages written so far to the PUB (broadcast) socket, in
send order. -/
structure IngestState where
  messages : List Json
  file : Option Json
  broadcasts : List Json

/-- One inbound delivery on the ingest (PULL) socket, together with the
per-step environment: `raw` is the result of `json.loads` on the
received string (`none` when the string is not well-formed JSON, so
`json.loads` raises `JSONDecodeError`), `tm` is the relay's local time
at this step, and `saveOk` tells whether opening the messages file for
writing succeeds at this step (`false` means `open` raises
`IOError`). -/
structure IngestInput where
  raw : Option Json
  tm : Tm
  saveOk : Bool

/-- One iteration of the `handle_messages` loop (`server.py` lines
125–139).  In source order: parse the payload (`json.loads`), stamp
`message_data['time']` with the formatted local time, serialize the
stamped record for broadcast, append it to the in-memory list, rewrite
the file (`save_messages`), then send the stamped record on the
broadcast socket.  The second component is `some e` when the uncaught
exception `e` propagates out of the iteration (terminating the
worker), in which case the state reflects the mutations that happened
before the raise. -/
def handle_messages_step (st : IngestState) (inp : IngestInput) :
    IngestState × Option PyError :=
  match inp.raw with
  | none => (st, some .jsonDecodeError)
  | some md =>
    match md with
    | .obj fs =>
      let stamped := Json.obj (setKey fs "time" (.str (strftime_YmdHMS inp.tm)))
      let st₁ := { st with messages := st.messages ++ [stamped] }
      if inp.saveOk then
        let st₂ := { st₁ with file := save_messages (mkMessagesObj st₁.messages) st₁.file }
        ({ st₂ with broadcasts := st₂.broadcasts ++ [stamped] }, none)
      else
        (st₁, some .ioError)
    | _ => (st, some .typeError)

/-- The Ingestor worker: processes inbound deliveries in arrival order;
the first uncaught exception terminates the thread, leaving the
remaining inputs unprocessed. -/
def run_ingestor (st : IngestState) : List IngestInput → IngestState × Option PyError
  | [] => (st, none)
  | inp :: rest =>
    match handle_messages_step st inp with
    | (st', none) => run_ingestor st' rest
    | (st', some e) => (st', some e)

/-- The stamped record an input produces when it is a well-formed JSON
object: the payload with its `time` field overwritten by the relay's
formatted local time. -/
def stampMsg (inp : IngestInput) : Option Json :=
  match inp.raw with
  | some (.obj fs) => some (.obj (setKey fs "time" (.str (strftime_YmdHMS inp.tm))))
  | _ => none

/-- An input whose iteration completes without raising: well-formed
JSON object payload and a successful durable write. -/
def goodInput (inp : IngestInput) : Bool :=
  inp.saveOk && (stampMsg inp).isSome

/-! ## Helper lemmas about dict assignment -/

lemma lookupField_setKey_self (fs : List (String × Json)) (k : String) (v : Json) :
    lookupField (setKey fs k v) k = some v := by
  induction fs with
  | nil => simp [setKey, lookupField]
  | cons e rest ih =>
    by_cases h : e.1 = k
    · simp [setKey, h, lookupField]
    · simp [setKey, h, lookupField, ih]

lemma lookupField_setKey_ne (fs : List (String × Json)) (k k' : String) (v : Json)
    (hne : k' ≠ k) : lookupField (setKey fs k v) k' = lookupField fs k' := by
  induction fs with
  | nil =>
    simp [setKey, lookupField, Ne.symm hne]
  | cons e rest ih =>
    by_cases h : e.1 = k
    · subst h
      simp [setKey, lookupField, Ne.symm hne]
    · simp only [setKey, h, if_false, lookupField, ih]

lemma setKey_setKey (fs : List (String × Json)) (k : String) (v w : Json) :
    setKey (setKey fs k v) k w = setKey fs k w := by
  induction fs with
  | nil => simp [setKey]
  | cons e rest ih =>
    by_cases h : e.1 = k
    · simp [setKey, h]
    · simp [setKey, h, ih]

lemma successResp_ne_failResp : successResp ≠ failResp := by
  simp [successResp, failResp]

/-! ## Helper lemmas about the ingest step -/

lemma handle_messages_step_good (st : IngestState) (inp : IngestInput)
    (fs : List (String × Json)) (hraw : inp.raw = some (.obj fs))
    (hsave : inp.saveOk = true) :
    handle_messages_step st inp =
      ({ messages := st.messages ++
            [Json.obj (setKey fs "time" (.str (strftime_YmdHMS inp.tm)))],
         file := some (mkMessagesObj (st.messages ++
            [Json.obj (setKey fs "time" (.str (strftime_YmdHMS inp.tm)))])),
         broadcasts := st.broadcasts ++
            [Json.obj (setKey fs "time" (.str (strftime_YmdHMS inp.tm)))] }, none) := by
  simp [handle_messages_step, hraw, hsave, save_messages]

lemma stampMsg_eq_some (inp : IngestInput) (md : Json) (h : stampMsg inp = some md) :
    ∃ fs, inp.raw = some (Json.obj fs) ∧
      md = Json.obj (setKey fs "time" (Json.str (strftime_YmdHMS inp.tm))) := by
  unfold stampMsg at h
  rcases hr : inp.raw with _ | j
  · rw [hr] at h
    cases h
  · rcases j with s | it | fs
    · rw [hr] at h
      cases h
    · rw [hr] at h
      cases h
    · rw [hr] at h
      exact ⟨fs, rfl, (Option.some.injEq _ _ ▸ h).symm⟩

/-! ## The claims -/

lemma handle_login_step_loginMsg (users : List (String × String))
    (u : String) (p : Json) :
    handle_login_step users (mkLoginMsg u p) =
      .ok (some (if credOk users u p then successResp else failResp)) := by
  rcases hl : users.lookup u with _ | d
  · simp [handle_login_step, mkLoginMsg, lookupField, credOk, hl]
  · rcases p with s | items | fields
    · by_cases hp : s = d
      · simp [handle_login_step, mkLoginMsg, lookupField, credOk, hl, hp]
      · simp [handle_login_step, mkLoginMsg, lookupField, credOk, hl, hp]
    · simp [handle_login_step, mkLoginMsg, lookupField, credOk, hl]
    · simp [handle_login_step, mkLoginMsg, lookupField, credOk, hl]

lemma credOk_iff (users : List (String × String)) (u : String) (p : Json) :
    credOk users u p = true ↔ ∃ d, users.lookup u = some d ∧ p = Json.str d := by
  rcases hl : users.lookup u with _ | d
  · simp [credOk, hl]
  · rcases p with s | items | fields <;> simp [credOk, hl]

/-- C1: For every login request `{type: "LOGIN", username, passwordDigest}`,
the server responds `{status: "success"}` if and only if the username is
present in the credential store and the stored digest is exactly equal
to the supplied digest; in every other case (unknown username or
non-matching digest) it responds `{status: "fail"}`. -/
theorem login_success_iff_credentials (users : List (String × String))
    (u : String) (p : Json) :
    (handle_login_step users (mkLoginMsg u p) = .ok (some successResp) ↔
      ∃ d, users.lookup u = some d ∧ p = Json.str d) ∧
    (handle_login_step users (mkLoginMsg u p) = .ok (some failResp) ↔
      ¬ ∃ d, users.lookup u = some d ∧ p = Json.str d) := by
  have hstep := handle_login_step_loginMsg users u p
  constructor
  · constructor
    · intro h
      rw [hstep] at h
      by_cases hc : credOk users u p = true
      · exact (credOk_iff users u p).mp hc
      · simp only [Bool.not_eq_true] at hc
        rw [hc] at h
        simp only [if_false, Except.ok.injEq, Option.some.injEq] at h
        exact absurd h.symm successResp_ne_failResp
    · intro hex
      rw [hstep, (credOk_iff users u p).mpr hex]
      simp
  · constructor
    · intro h
      rw [hstep] at h
      intro hex
      rw [(credOk_iff users u p).mpr hex] at h
      simp only [if_true, Except.ok.injEq, Option.some.injEq] at h
      exact absurd h successResp_ne_failResp
    · intro hnex
      have hc : credOk users u p = false := by
        rcases Bool.eq_false_or_eq_true (credOk users u p) with h | h
        · exact absurd ((credOk_iff users u p).mp h) hnex
        · exact h
      rw [hstep, hc]
      simp

/-- C2: For every message accepted on the ingest channel, the relay
overwrites the payload's `time` field with relay-local wall-clock time
formatted as `YYYY-MM-DD HH:MM:SS` before the message is appended to
the log or broadcast; the client-supplied time value never appears in
the persisted or broadcast message.  The last conjunct makes the
"never appears" reading precise: the processed result is literally
independent of whatever `time` value the client sent. -/
theorem ingest_overwrites_time (st : IngestState) (inp : IngestInput)
    (fs : List (String × Json)) (v : Json)
    (hraw : inp.raw = some (Json.obj fs)) (hsave : inp.saveOk = true) :
    handle_messages_step st inp =
      ({ messages := st.messages ++
            [Json.obj (setKey fs "time" (Json.str (strftime_YmdHMS inp.tm)))],
         file := some (mkMessagesObj (st.messages ++
            [Json.obj (setKey fs "time" (Json.str (strftime_YmdHMS inp.tm)))])),
         broadcasts := st.broadcasts ++
            [Json.obj (setKey fs "time" (Json.str (strftime_YmdHMS inp.tm)))] }, none) ∧
    Json.getField (Json.obj (setKey fs "time" (Json.str (strftime_YmdHMS inp.tm)))) "time" =
      some (Json.str (strftime_YmdHMS inp.tm)) ∧
    handle_messages_step st { inp with raw := some (Json.obj (setKey fs "time" v)) } =
      handle_messages_step st inp := by
  refine ⟨handle_messages_step_good st inp fs hraw hsave, ?_, ?_⟩
  · simp [Json.getField, lookupField_setKey_self]
  · rw [handle_messages_step_good st { inp with raw := some (Json.obj (setKey fs "time" v)) }
        (setKey fs "time" v) rfl hsave,
      handle_messages_step_good st inp fs hraw hsave]
    simp [setKey_setKey]

/-- Witness for C2: the spec's §8 scenario — ingesting
`{"message":"hi","sender":"alice","sender_ip":"10.0.0.2","time":"ignored"}`
at local time 2024-01-02 03:04:05 appends and broadcasts the record
with the server-assigned timestamp, and sending `"spoofed"` as the
client time changes nothing. -/
theorem ingest_overwrites_time_witness :
    handle_messages_step ⟨[], none, []⟩
        ⟨some (Json.obj [("message", Json.str "hi"), ("sender", Json.str "alice"),
            ("sender_ip", Json.str "10.0.0.2"), ("time", Json.str "ignored")]),
         ⟨2024, 1, 2, 3, 4, 5⟩, true⟩ =
      ({ messages := [Json.obj [("message", Json.str "hi"), ("sender", Json.str "alice"),
            ("sender_ip", Json.str "10.0.0.2"), ("time", Json.str "2024-01-02 03:04:05")]],
         file := some (mkMessagesObj
            [Json.obj [("message", Json.str "hi"), ("sender", Json.str "alice"),
              ("sender_ip", Json.str "10.0.0.2"), ("time", Json.str "2024-01-02 03:04:05")]]),
         broadcasts := [Json.obj [("message", Json.str "hi"), ("sender", Json.str "alice"),
            ("sender_ip", Json.str "10.0.0.2"), ("time", Json.str "2024-01-02 03:04:05")]] },
       none) ∧
    Json.getField (Json.obj [("message", Json.str "hi"), ("sender", Json.str "alice"),
        ("sender_ip", Json.str "10.0.0.2"), ("time", Json.str "2024-01-02 03:04:05")]) "time" =
      some (Json.str "2024-01-02 03:04:05") ∧
    handle_messages_step ⟨[], none, []⟩
        ⟨some (Json.obj [("message", Json.str "hi"), ("sender", Json.str "alice"),
            ("sender_ip", Json.str "10.0.0.2"), ("time", Json.str "spoofed")]),
         ⟨2024, 1, 2, 3, 4, 5⟩, true⟩ =
      handle_messages_step ⟨[], none, []⟩
        ⟨some (Json.obj [("message", Json.str "hi"), ("sender", Json.str "alice"),
            ("sender_ip", Json.str "10.0.0.2"), ("time", Json.str "ignored")]),
         ⟨2024, 1, 2, 3, 4, 5⟩, true⟩ :=
  ingest_overwrites_time ⟨[], none, []⟩
    ⟨some (Json.obj [("message", Json.str "hi"), ("sender", Json.str "alice"),
        ("sender_ip", Json.str "10.0.0.2"), ("time", Json.str "ignored")]),
     ⟨2024, 1, 2, 3, 4, 5⟩, true⟩
    [("message", Json.str "hi"), ("sender", Json.str "alice"),
      ("sender_ip", Json.str "10.0.0.2"), ("time", Json.str "ignored")]
    (Json.str "spoofed") rfl rfl

/-- C3 counterexample: the claim says a malformed input is logged and
discarded and a subsequent well-formed message is still processed.  In
`handle_messages` (`server.py` lines 125–139) nothing catches the
`json.JSONDecodeError` raised by `json.loads`, so the exception
propagates and terminates the worker thread: after a malformed first
input, the well-formed second input is never parsed, appended, or
broadcast — the final state still has an empty log, an untouched file,
and an empty broadcast sequence. -/
theorem malformed_input_kills_ingestor_cex :
    run_ingestor ⟨[], none, []⟩
        [⟨none, ⟨2024, 1, 2, 3, 4, 5⟩, true⟩,
         ⟨some (Json.obj [("message", Json.str "hi"), ("sender", Json.str "alice"),
            ("sender_ip", Json.str "10.0.0.2"), ("time", Json.str "x")]),
          ⟨2024, 1, 2, 3, 4, 6⟩, true⟩] =
      (⟨[], none, []⟩, some PyError.jsonDecodeError) := rfl

/-- C3 amended: an input on the ingest channel that is not well-formed
JSON raises an uncaught `JSONDecodeError` that terminates the Ingestor
worker; every input after it is left unprocessed (`handle_messages`
has no try/except around `json.loads`). -/
theorem malformed_input_terminates_ingestor (st : IngestState)
    (inp : IngestInput) (rest : List IngestInput) (h : inp.raw = none) :
    run_ingestor st (inp :: rest) = (st, some PyError.jsonDecodeError) := by
  simp [run_ingestor, handle_messages_step, h]

/-- Witness for the amended C3 at a concrete malformed input. -/
theorem malformed_input_terminates_ingestor_witness :
    (⟨none, ⟨2024, 1, 2, 3, 4, 5⟩, true⟩ : IngestInput).raw = none ∧
    run_ingestor ⟨[], none, []⟩ [⟨none, ⟨2024, 1, 2, 3, 4, 5⟩, true⟩] =
      (⟨[], none, []⟩, some PyError.jsonDecodeError) :=
  ⟨rfl, malformed_input_terminates_ingestor ⟨[], none, []⟩
    ⟨none, ⟨2024, 1, 2, 3, 4, 5⟩, true⟩ [] rfl⟩

/-- C4 counterexample: the claim says a non-"LOGIN" request makes the
handler fail with a `ProtocolError` and still answer the channel.  The
`handle_login` loop (`server.py` lines 100–111) has no `else` branch
for `if message['type'] == "LOGIN"` and `server.py` defines no
`ProtocolError`: for a `{"type": "LOGOUT"}` request the iteration
completes with no exception and no response sent (`.ok none`), leaving
the strict request/response channel without a response. -/
theorem nonlogin_request_no_response_cex :
    handle_login_step [("alice", "d41d8cd98f00b204e9800998ecf8427e")]
      (Json.obj [("type", Json.str "LOGOUT")]) = .ok none := rfl

/-- C4 amended: for every request on the login channel whose `type`
field is present but is not the string `"LOGIN"`, the handler raises
nothing and sends nothing: it silently drops the request (leaving the
request/response channel without a response) and loops to wait for
the next one. -/
theorem nonlogin_request_silently_dropped (users : List (String × String))
    (fs : List (String × Json)) (t : Json)
    (ht : lookupField fs "type" = some t)
    (hne : ∀ s, t = Json.str s → s ≠ "LOGIN") :
    handle_login_step users (Json.obj fs) = .ok none := by
  rcases t with s | it | fl
  · simp only [handle_login_step, ht]
    rw [if_neg (hne s rfl)]
  · simp only [handle_login_step, ht]
  · simp only [handle_login_step, ht]

/-- Witness for the amended C4 at a concrete `{"type": "LOGOUT"}`
request. -/
theorem nonlogin_request_silently_dropped_witness :
    lookupField [("type", Json.str "LOGOUT")] "type" = some (Json.str "LOGOUT") ∧
    handle_login_step [] (Json.obj [("type", Json.str "LOGOUT")]) = .ok none :=
  ⟨rfl, nonlogin_request_silently_dropped [] [("type", Json.str "LOGOUT")]
    (Json.str "LOGOUT") rfl
    (fun s hs => by cases hs; decide)⟩

/-- C5 counterexample: the claim says a failed durable append still
lets the message reach the Broadcaster and the worker continue.  In
`handle_messages` the broadcast `message_socket.send_string` comes
*after* `save_messages(messages)` and nothing catches the `IOError`:
when opening the file for writing fails, the exception propagates, the
message is never broadcast (`broadcasts` stays empty) and the worker
terminates. -/
theorem ioerror_blocks_broadcast_cex :
    run_ingestor ⟨[], none, []⟩
        [⟨some (Json.obj [("message", Json.str "hi"), ("sender", Json.str "alice"),
            ("sender_ip", Json.str "10.0.0.2"), ("time", Json.str "x")]),
          ⟨2024, 1, 2, 3, 4, 5⟩, false⟩] =
      (⟨[Json.obj [("message", Json.str "hi"), ("sender", Json.str "alice"),
          ("sender_ip", Json.str "10.0.0.2"), ("time", Json.str "2024-01-02 03:04:05")]],
        none, []⟩, some PyError.ioError) := rfl

/-- C5 amended: if the durable write of an ingested message fails with
`IOError`, the in-memory append has already happened but the message
is *not* forwarded to the Broadcaster (the file and the broadcast
sequence are unchanged) and the uncaught exception terminates the
Ingestor worker. -/
theorem ioerror_prevents_broadcast (st : IngestState) (inp : IngestInput)
    (fs : List (String × Json)) (hraw : inp.raw = some (Json.obj fs))
    (hsave : inp.saveOk = false) :
    handle_messages_step st inp =
      ({ st with messages := st.messages ++
          [Json.obj (setKey fs "time" (Json.str (strftime_YmdHMS inp.tm)))] },
       some PyError.ioError) := by
  simp [handle_messages_step, hraw, hsave]

/-- Witness for the amended C5 at a concrete failing write. -/
theorem ioerror_prevents_broadcast_witness :
    (⟨some (Json.obj [("time", Json.str "x")]), ⟨2024, 1, 2, 3, 4, 5⟩, false⟩ :
        IngestInput).raw = some (Json.obj [("time", Json.str "x")]) ∧
    handle_messages_step ⟨[], none, []⟩
        ⟨some (Json.obj [("time", Json.str "x")]), ⟨2024, 1, 2, 3, 4, 5⟩, false⟩ =
      (⟨[Json.obj [("time", Json.str "2024-01-02 03:04:05")]], none, []⟩,
       some PyError.ioError) :=
  ⟨rfl, ioerror_prevents_broadcast ⟨[], none, []⟩
    ⟨some (Json.obj [("time", Json.str "x")]), ⟨2024, 1, 2, 3, 4, 5⟩, false⟩
    [("time", Json.str "x")] rfl rfl⟩

/-- C6: For every sequence of messages arriving at the Ingestor (all
well-formed, with successful durable writes — the iterations that
complete), the worker is still running at the end and both the
sequence of entries appended to the log (in memory and on file) and
the sequence of messages sent on the broadcast channel equal the
arrival order, each message stamped at its own step. -/
theorem ingest_order_preserved (st : IngestState) (inputs : List IngestInput)
    (h : inputs.all goodInput = true) :
    (run_ingestor st inputs).2 = none ∧
    (run_ingestor st inputs).1.messages = st.messages ++ inputs.filterMap stampMsg ∧
    (run_ingestor st inputs).1.broadcasts = st.broadcasts ++ inputs.filterMap stampMsg ∧
    (run_ingestor st inputs).1.file =
      (if inputs.isEmpty then st.file
       else some (mkMessagesObj (st.messages ++ inputs.filterMap stampMsg))) := by
  induction inputs generalizing st with
  | nil => simp [run_ingestor]
  | cons inp rest ih =>
    rw [List.all_cons, Bool.and_eq_true] at h
    obtain ⟨hg, hrest⟩ := h
    rw [goodInput, Bool.and_eq_true] at hg
    obtain ⟨hsave, hsome⟩ := hg
    rcases hsm : stampMsg inp with _ | md
    · rw [hsm] at hsome
      cases hsome
    · obtain ⟨fs, hraw, hmd⟩ := stampMsg_eq_some inp md hsm
      have hstep := handle_messages_step_good st inp fs hraw hsave
      rw [← hmd] at hstep
      have ih' := ih ⟨st.messages ++ [md], some (mkMessagesObj (st.messages ++ [md])),
        st.broadcasts ++ [md]⟩ hrest
      simp only [run_ingestor, hstep, List.filterMap_cons, hsm] at ih' ⊢
      refine ⟨ih'.1, ?_, ?_, ?_⟩
      · rw [ih'.2.1]
        simp
      · rw [ih'.2.2.1]
        simp
      · rw [ih'.2.2.2]
        rcases rest with _ | ⟨r, rs⟩
        · simp
        · simp

/-- Witness for C6: the spec's §8 scenario — three messages A, B, C
arriving in that order are persisted and broadcast as A, B, C with
their per-step server timestamps. -/
theorem ingest_order_preserved_witness :
    ([⟨some (Json.obj [("message", Json.str "A"), ("sender", Json.str "alice"),
          ("time", Json.str "9")]), ⟨2024, 1, 2, 3, 4, 5⟩, true⟩,
      ⟨some (Json.obj [("message", Json.str "B"), ("sender", Json.str "bob"),
          ("time", Json.str "1")]), ⟨2024, 1, 2, 3, 4, 6⟩, true⟩,
      ⟨some (Json.obj [("message", Json.str "C"), ("sender", Json.str "carol"),
          ("time", Json.str "5")]), ⟨2024, 1, 2, 3, 4, 7⟩, true⟩] :
        List IngestInput).all goodInput = true ∧
    (run_ingestor ⟨[], none, []⟩
        [⟨some (Json.obj [("message", Json.str "A"), ("sender", Json.str "alice"),
            ("time", Json.str "9")]), ⟨2024, 1, 2, 3, 4, 5⟩, true⟩,
         ⟨some (Json.obj [("message", Json.str "B"), ("sender", Json.str "bob"),
            ("time", Json.str "1")]), ⟨2024, 1, 2, 3, 4, 6⟩, true⟩,
         ⟨some (Json.obj [("message", Json.str "C"), ("sender", Json.str "carol"),
            ("time", Json.str "5")]), ⟨2024, 1, 2, 3, 4, 7⟩, true⟩]).1.broadcasts =
      [Json.obj [("message", Json.str "A"), ("sender", Json.str "alice"),
          ("time", Json.str "2024-01-02 03:04:05")],
       Json.obj [("message", Json.str "B"), ("sender", Json.str "bob"),
          ("time", Json.str "2024-01-02 03:04:06")],
       Json.obj [("message", Json.str "C"), ("sender", Json.str "carol"),
          ("time", Json.str "2024-01-02 03:04:07")]] :=
  ⟨rfl, by
    have h := ingest_order_preserved ⟨[], none, []⟩
      [⟨some (Json.obj [("message", Json.str "A"), ("sender", Json.str "alice"),
          ("time", Json.str "9")]), ⟨2024, 1, 2, 3, 4, 5⟩, true⟩,
       ⟨some (Json.obj [("message", Json.str "B"), ("sender", Json.str "bob"),
          ("time", Json.str "1")]), ⟨2024, 1, 2, 3, 4, 6⟩, true⟩,
       ⟨some (Json.obj [("message", Json.str "C"), ("sender", Json.str "carol"),
          ("time", Json.str "5")]), ⟨2024, 1, 2, 3, 4, 7⟩, true⟩] rfl
    exact h.2.2.1⟩

/-- C7: After every successful append (one completed iteration of the
ingest loop, which rewrites the entire sequence to durable storage),
reloading the MessageLog from durable storage yields exactly the
in-memory sequence. -/
theorem append_then_reload_roundtrip (st st' : IngestState) (inp : IngestInput)
    (h : handle_messages_step st inp = (st', none)) :
    load_messages st'.file = (mkMessagesObj st'.messages, false) := by
  rcases hr : inp.raw with _ | j
  · simp [handle_messages_step, hr] at h
  · rcases j with s | it | fs
    · simp [handle_messages_step, hr] at h
    · simp [handle_messages_step, hr] at h
    · rcases hs : inp.saveOk with _ | _
      · simp [handle_messages_step, hr, hs] at h
      · rw [handle_messages_step_good st inp fs hr hs] at h
        injection h with h1 h2
        subst h1
        rfl

/-- Witness for C7 at a concrete append. -/
theorem append_then_reload_roundtrip_witness :
    handle_messages_step ⟨[], none, []⟩
        ⟨some (Json.obj [("time", Json.str "x")]), ⟨2024, 1, 2, 3, 4, 5⟩, true⟩ =
      (⟨[Json.obj [("time", Json.str "2024-01-02 03:04:05")]],
        some (mkMessagesObj [Json.obj [("time", Json.str "2024-01-02 03:04:05")]]),
        [Json.obj [("time", Json.str "2024-01-02 03:04:05")]]⟩, none) ∧
    load_messages (some (mkMessagesObj
        [Json.obj [("time", Json.str "2024-01-02 03:04:05")]])) =
      (mkMessagesObj [Json.obj [("time", Json.str "2024-01-02 03:04:05")]], false) :=
  ⟨rfl, append_then_reload_roundtrip ⟨[], none, []⟩
    ⟨[Json.obj [("time", Json.str "2024-01-02 03:04:05")]],
      some (mkMessagesObj [Json.obj [("time", Json.str "2024-01-02 03:04:05")]]),
      [Json.obj [("time", Json.str "2024-01-02 03:04:05")]]⟩
    ⟨some (Json.obj [("time", Json.str "x")]), ⟨2024, 1, 2, 3, 4, 5⟩, true⟩ rfl⟩

/-- C8: `load_messages` returns the parsed content when the durable
file exists, and when the file is absent it returns the empty sequence
`{"messages": []}` together with a logged recoverable warning; no
branch raises, so an absent message file is never fatal at startup.
The third conjunct ties it to `save_messages`: reloading what was
saved returns it verbatim. -/
theorem load_messages_never_fatal :
    (∀ c, load_messages (some c) = (c, false)) ∧
    load_messages none = (mkMessagesObj [], true) ∧
    (∀ m f, load_messages (save_messages m f) = (m, false)) :=
  ⟨fun _ => rfl, rfl, fun _ _ => rfl⟩

/-- C9: Every response `handle_login` sends is exactly the one-field
object `{"status": "success"}` or `{"status": "fail"}`; in particular
it carries no `messages` list, so the client's
`response.get("messages", [])` always falls back to the empty list and
`display_initial_messages` shows nothing. -/
theorem login_response_only_status (users : List (String × String))
    (msg r : Json) (h : handle_login_step users msg = .ok (some r)) :
    (r = Json.obj [("status", Json.str "success")] ∨
      r = Json.obj [("status", Json.str "fail")]) ∧
    pyDictGet r "messages" (Json.arr []) = Json.arr [] := by
  rcases msg with s | it | fs
  · simp [handle_login_step] at h
  · simp [handle_login_step] at h
  · unfold handle_login_step at h
    repeat' split at h
    all_goals cases h
    all_goals first
      | exact ⟨Or.inl rfl, rfl⟩
      | exact ⟨Or.inr rfl, rfl⟩

/-- Witness for C9: the successful login of the spec's §8 scenario. -/
theorem login_response_only_status_witness :
    (successResp = Json.obj [("status", Json.str "success")] ∨
      successResp = Json.obj [("status", Json.str "fail")]) ∧
    pyDictGet successResp "messages" (Json.arr []) = Json.arr [] :=
  login_response_only_status [("alice", "d41d8cd98f00b204e9800998ecf8427e")]
    (mkLoginMsg "alice" (Json.str "d41d8cd98f00b204e9800998ecf8427e"))
    successResp rfl

/-- C10: For every well-formed payload processed by the ingest
handler, the entry appended to the log and the record broadcast to
subscribers are one and the same stamped record, and every field of
that record other than `time` is exactly the field of the inbound
payload, unchanged. -/
theorem ingest_frame_preserved (st : IngestState) (inp : IngestInput)
    (fs : List (String × Json)) (k : String)
    (hraw : inp.raw = some (Json.obj fs)) (hsave : inp.saveOk = true)
    (hk : k ≠ "time") :
    (handle_messages_step st inp).2 = none ∧
    (handle_messages_step st inp).1.messages =
      st.messages ++ [Json.obj (setKey fs "time" (Json.str (strftime_YmdHMS inp.tm)))] ∧
    (handle_messages_step st inp).1.broadcasts =
      st.broadcasts ++ [Json.obj (setKey fs "time" (Json.str (strftime_YmdHMS inp.tm)))] ∧
    lookupField (setKey fs "time" (Json.str (strftime_YmdHMS inp.tm))) k =
      lookupField fs k := by
  rw [handle_messages_step_good st inp fs hraw hsave]
  exact ⟨rfl, rfl, rfl, lookupField_setKey_ne fs "time" k _ hk⟩

/-- Witness for C10 at the spec's §8 ingest scenario, checking the
`sender` field. -/
theorem ingest_frame_preserved_witness :
    (handle_messages_step ⟨[], none, []⟩
        ⟨some (Json.obj [("type", Json.str "MESSAGE"), ("message", Json.str "hi"),
            ("sender", Json.str "alice"), ("sender_ip", Json.str "10.0.0.2"),
            ("time", Json.str "x")]), ⟨2024, 1, 2, 3, 4, 5⟩, true⟩).2 = none ∧
    (handle_messages_step ⟨[], none, []⟩
        ⟨some (Json.obj [("type", Json.str "MESSAGE"), ("message", Json.str "hi"),
            ("sender", Json.str "alice"), ("sender_ip", Json.str "10.0.0.2"),
            ("time", Json.str "x")]), ⟨2024, 1, 2, 3, 4, 5⟩, true⟩).1.messages =
      [] ++ [Json.obj (setKey [("type", Json.str "MESSAGE"), ("message", Json.str "hi"),
            ("sender", Json.str "alice"), ("sender_ip", Json.str "10.0.0.2"),
            ("time", Json.str "x")] "time"
          (Json.str (strftime_YmdHMS ⟨2024, 1, 2, 3, 4, 5⟩)))] ∧
    (handle_messages_step ⟨[], none, []⟩
        ⟨some (Json.obj [("type", Json.str "MESSAGE"), ("message", Json.str "hi"),
            ("sender", Json.str "alice"), ("sender_ip", Json.str "10.0.0.2"),
            ("time", Json.str "x")]), ⟨2024, 1, 2, 3, 4, 5⟩, true⟩).1.broadcasts =
      [] ++ [Json.obj (setKey [("type", Json.str "MESSAGE"), ("message", Json.str "hi"),
            ("sender", Json.str "alice"), ("sender_ip", Json.str "10.0.0.2"),
            ("time", Json.str "x")] "time"
          (Json.str (strftime_YmdHMS ⟨2024, 1, 2, 3, 4, 5⟩)))] ∧
    lookupField (setKey [("type", Json.str "MESSAGE"), ("message", Json.str "hi"),
        ("sender", Json.str "alice"), ("sender_ip", Json.str "10.0.0.2"),
        ("time", Json.str "x")] "time"
        (Json.str (strftime_YmdHMS ⟨2024, 1, 2, 3, 4, 5⟩))) "sender" =
      lookupField [("type", Json.str "MESSAGE"), ("message", Json.str "hi"),
        ("sender", Json.str "alice"), ("sender_ip", Json.str "10.0.0.2"),
        ("time", Json.str "x")] "sender" :=
  ingest_frame_preserved ⟨[], none, []⟩
    ⟨some (Json.obj [("type", Json.str "MESSAGE"), ("message", Json.str "hi"),
        ("sender", Json.str "alice"), ("sender_ip", Json.str "10.0.0.2"),
        ("time", Json.str "x")]), ⟨2024, 1, 2, 3, 4, 5⟩, true⟩
    [("type", Json.str "MESSAGE"), ("message", Json.str "hi"),
      ("sender", Json.str "alice"), ("sender_ip", Json.str "10.0.0.2"),
      ("time", Json.str "x")] "sender" rfl rfl (by decide)

end DNCI
